import Mathlib

/-!
Verification of the PyGrid infrastructure CLI (`apps/infrastructure/cli/cli.py`).

The program is a sequential, interactive `click` command-line tool.  We give a
shallow embedding: interactive prompt answers, the health-probe outcome and the
opaque collaborator results (`aws.get_vpc_config`, `aws.get_db_config`, the
parsed credentials file) are inputs; the mutable `Config` object is an
association list of JSON values mirroring Python attribute-insertion order; the
HTTP side effects are a list of issued requests.
-/

namespace PyGridCLI

/-- JSON values, as produced by Python's `json` module: the configuration
object, request bodies and response bodies are such values. -/
inductive Json where
  | null : Json
  | bool (b : Bool) : Json
  | str (s : String) : Json
  | num (n : Int) : Json
  | arr (xs : List Json) : Json
  | obj (fields : List (String × Json)) : Json
deriving Repr

/-- Escape a character for a JSON string literal (quote and backslash; the
inputs exercised here contain no control characters). -/
def escapeChar (c : Char) : String :=
  if c = '"' then "\\\"" else if c = '\\' then "\\\\" else String.singleton c

/-- Escape a string for inclusion in a JSON string literal. -/
def escapeString (s : String) : String :=
  String.join (s.data.map escapeChar)

mutual

/-- Models Python `json.dumps` (compact rendering; the `indent=2` whitespace of
the source is presentation only and irrelevant to the claims, which concern
the shape of the body — a JSON-encoded string versus a structured value). -/
def dumps : Json → String
  | .null => "null"
  | .bool true => "true"
  | .bool false => "false"
  | .str s => "\"" ++ escapeString s ++ "\""
  | .num n => toString n
  | .arr xs => "[" ++ dumpsList xs ++ "]"
  | .obj fs => "\x7b" ++ dumpsFields fs ++ "\x7d"

/-- Comma-separated rendering of array elements. -/
def dumpsList : List Json → String
  | [] => ""
  | [x] => dumps x
  | x :: xs => dumps x ++ ", " ++ dumpsList xs

/-- Comma-separated rendering of object fields. -/
def dumpsFields : List (String × Json) → String
  | [] => ""
  | [(k, v)] => "\"" ++ escapeString k ++ "\": " ++ dumps v
  | (k, v) :: fs => "\"" ++ escapeString k ++ "\": " ++ dumps v ++ ", " ++ dumpsFields fs

end

/-- Field lookup on a JSON value, as Python `parsed[key]` on a parsed object
(a parsed JSON object has unique keys, so first-match lookup agrees). -/
def Json.lookupField : Json → String → Option Json
  | .obj fs, k => fs.lookup k
  | _, _ => none

/-- Models Python `str.lower()` (ASCII inputs here), character by character. -/
def pyLower (s : String) : String :=
  String.mk (s.data.map Char.toLower)

/-- Split a character sequence at the first `://`, returning the scheme part
and the remainder. -/
def schemeSplit : List Char → Option (List Char × List Char)
  | [] => none
  | ':' :: '/' :: '/' :: rest => some ([], rest)
  | c :: rest => (schemeSplit rest).map (fun p => (c :: p.1, p.2))

/-- The scheme-and-authority prefix of a URL: everything up to the first `/`
after `://`. -/
def urljoinRoot (base : String) : String :=
  match schemeSplit base.data with
  | some (scheme, rest) =>
    String.mk (scheme ++ ':' :: '/' :: '/' :: rest.takeWhile (fun c => c ≠ '/'))
  | none => ""

/-- Models `urllib.parse.urljoin` for the only case this program exercises:
the reference string starts with `/` (an absolute path), so the result is the
scheme-and-authority part of the base followed by the reference. -/
def urljoin (base ref : String) : String :=
  urljoinRoot base ++ ref

/-- A base URL with no path component (`urljoin` then just appends). -/
def isOriginUrl (base : String) : Prop :=
  urljoinRoot base = base

/-- Models `click.Choice(choices, case_sensitive=False)`: an input is accepted
when it matches one of the declared choices up to case, and the value passed
to the command is the matching declared choice. -/
def clickChoice (choices : List String) (input : String) : Option String :=
  choices.find? (fun c => pyLower c == pyLower input)

/-- An issued HTTP request: the URL and the value the HTTP client serializes
as the request body (`none` for a body-less GET). -/
structure HttpRequest where
  url : String
  body : Option Json
deriving Repr

/-- Outcome of the startup `requests.get(api_url)` health probe: the call
either raises (network failure) or yields a response with a status code and a
body that may or may not parse as JSON (`none` = `response.json()` raises). -/
inductive HealthResult where
  | exn : HealthResult
  | resp (statusCode : Nat) (body : Option Json) : HealthResult

/-- The `"message"` field of the probe's body, when the body parsed as a JSON
object carrying one; `none` means `response.json()["message"]` raises. -/
def messageOf : Option Json → Option Json
  | some (.obj fs) => fs.lookup "message"
  | _ => none

/-- Whether the `try` block of the root initializer raises: `requests.get`
itself raised, or the status was 200 and reading `response.json()["message"]`
failed (malformed body, non-object body, or missing field).  A non-200
response raises nothing: `requests` does not raise on status codes and the
body is never touched in that case. -/
def healthFailure : HealthResult → Bool
  | .exn => true
  | .resp statusCode body => statusCode == 200 && (messageOf body).isNone

/-- Result of the root initializer `cli`: whether `quit()` ran (terminating the
process before any subcommand), what was echoed, and the configuration fields
set so far (in attribute-insertion order). -/
structure CliResult where
  quit : Bool
  echoes : List Json
  config : List (String × Json)
deriving Repr

/-- Models the root initializer `cli`: sets `api_url`, probes it, echoes the
welcome banner on a healthy 200, and on any exception echoes an error and
terminates; otherwise derives the root path and output-file path. -/
def cliInit (apiUrl outputFile home : String) (h : HealthResult) : CliResult :=
  if healthFailure h then
    { quit := true
      echoes := [Json.str "Please enter a valid API URL"]
      config := [("api_url", Json.str apiUrl)] }
  else
    let rootPath := home ++ "/.pygrid/cli"
    { quit := false
      echoes :=
        match h with
        | .resp 200 body =>
          match messageOf body with
          | some msg => [msg, Json.str "Welcome to OpenMined PyGrid CLI"]
          | none => []
        | _ => []
      config :=
        [("api_url", Json.str apiUrl),
         ("pygrid_root_path", Json.str rootPath),
         ("output_file", Json.str (rootPath ++ "/" ++ outputFile))] }

/-- The interactive and external inputs consumed by the `deploy` subcommand
body: the parsed contents of the credentials file, the two yes/no prompts, the
application-argument prompt answers (`click.prompt` with `type=str` yields
strings), the opaque collaborator results, and the final confirmation.
`vpcConfig` and `dbConfig` are modelled from the spec: `aws.get_vpc_config`
and `aws.get_db_config` live in `provider_utils`, which is not part of the
source under study; the spec treats them as opaque functions returning a
configuration fragment. -/
structure DeployInputs where
  credsCloud : Json
  serverless : Bool
  websockets : Bool
  nodeId : String
  nodePort : String
  nodeHost : String
  nodeNetwork : String
  netPort : String
  netHost : String
  vpcConfig : Json
  dbConfig : Json
  confirm : Bool
deriving Repr

/-- Models `get_app_arguments`: the fields added to `config.app` (beyond
`name`), keyed on the application name and the serverless flag. -/
def get_app_arguments (name : String) (serverless : Bool) (i : DeployInputs) :
    List (String × Json) :=
  if name == "node" then
    [("id", Json.str i.nodeId),
     ("port", Json.str i.nodePort),
     ("host", Json.str i.nodeHost),
     ("network", Json.str i.nodeNetwork)]
  else if name == "network" && !serverless then
    [("port", Json.str i.netPort),
     ("host", Json.str i.netHost)]
  else
    []

/-- The `config.app` sub-record: `Config(name=app.lower())` followed by the
fields `get_app_arguments` adds to it. -/
def appRecord (app : String) (i : DeployInputs) : List (String × Json) :=
  ("name", Json.str (pyLower app)) :: get_app_arguments (pyLower app) i.serverless i

/-- Result of the `deploy` subcommand body: the configuration object after it
ran, the separate `credentials` object it built, and the POSTs it issued. -/
structure DeployResult where
  config : List (String × Json)
  credentials : List (String × Json)
  posts : List HttpRequest
deriving Repr

/-- Models the `deploy` subcommand body.  `root` is the configuration as the
root initializer left it; `provider` and `app` are the values `click.Choice`
passed in.  Attribute order on the shared object: `provider`, `app` (with its
sub-fields), `serverless`, `websockets`, then `vpc` only for AWS, then —
only when the user confirms — `credentials`; on confirmation the whole object
is dumped to a JSON string and that string is the value POSTed
(`requests.post(url, json=data)` with `data` already a string serializes the
string itself). -/
def deploy (root : List (String × Json)) (apiUrl provider app : String)
    (i : DeployInputs) : DeployResult :=
  let prov := pyLower provider
  let credentials := [("cloud", i.credsCloud), ("db", i.dbConfig)]
  let base := root ++
    [("provider", Json.str prov),
     ("app", Json.obj (appRecord app i)),
     ("serverless", Json.bool i.serverless),
     ("websockets", Json.bool i.websockets)] ++
    (if prov == "aws" then [("vpc", i.vpcConfig)] else [])
  if i.confirm then
    let final := base ++ [("credentials", Json.obj credentials)]
    { config := final
      credentials := credentials
      posts := [{ url := urljoin apiUrl "/deploy"
                  body := some (Json.str (dumps (Json.obj final))) }] }
  else
    { config := base, credentials := credentials, posts := [] }

/-- Models the `status` subcommand body: the GET it issues.  `app` is the
value `click.Choice(["Node", "Network"], case_sensitive=False)` passed in; the
body lowercases it and picks the collection or single-resource endpoint. -/
def status (apiUrl app : String) (id : Option Int) : HttpRequest :=
  let a := pyLower app
  { url :=
      match id with
      | none => urljoin apiUrl ("/deployed/" ++ a ++ "s")
      | some n => urljoin apiUrl ("/deployed/" ++ a ++ "/" ++ toString n)
    body := none }

/-- Models the result callback `logging`: `json.dump(vars(config), f, ...,
default=lambda o: o.__dict__)` writes the configuration object — nested
`Config` objects flattened to their attribute dictionaries — to the output
file.  The written JSON document is modelled as the JSON tree; the byte-level
file mechanics are out of scope. -/
def logging (config : List (String × Json)) : Json :=
  Json.obj config

/-- A whole invocation, from process start to exit: whether startup aborted,
the final configuration, the HTTP requests issued after the probe, and the
document the finalizer wrote (`none` when `quit()` fired first, since the
result callback never runs then). -/
structure RunResult where
  startupQuit : Bool
  echoes : List Json
  config : List (String × Json)
  requests : List HttpRequest
  written : Option Json
deriving Repr

/-- A full `deploy` invocation: root initializer, then — unless it quit — the
deploy body and the finalizer. -/
def runDeploy (apiUrl outputFile home : String) (h : HealthResult)
    (provider app : String) (i : DeployInputs) : RunResult :=
  let c := cliInit apiUrl outputFile home h
  if c.quit then
    { startupQuit := true, echoes := c.echoes, config := c.config
      requests := [], written := none }
  else
    let r := deploy c.config apiUrl provider app i
    { startupQuit := false, echoes := c.echoes, config := r.config
      requests := r.posts, written := some (logging r.config) }

/-- A full `status` invocation: root initializer, then — unless it quit — the
status body and the finalizer. -/
def runStatus (apiUrl outputFile home : String) (h : HealthResult)
    (app : String) (id : Option Int) : RunResult :=
  let c := cliInit apiUrl outputFile home h
  if c.quit then
    { startupQuit := true, echoes := c.echoes, config := c.config
      requests := [], written := none }
  else
    { startupQuit := false, echoes := c.echoes, config := c.config
      requests := [status apiUrl app id], written := some (logging c.config) }

/-- A concrete API base URL with no path component. -/
def sampleApi : String := "http://localhost:5000"

/-- A healthy probe outcome: 200 with a JSON object carrying `message`. -/
def sampleHealth : HealthResult :=
  .resp 200 (some (.obj [("message", Json.str "OpenMined PyGrid API")]))

/-- Concrete deploy-prompt answers matching the spec's walk-through scenario,
ending in a confirmed submission. -/
def sampleInputs : DeployInputs :=
  { credsCloud := .obj [("key", .str "secret")]
    serverless := false
    websockets := false
    nodeId := "n1"
    nodePort := "5000"
    nodeHost := "0.0.0.0"
    nodeNetwork := "0.0.0.0:7000"
    netPort := "7000"
    netHost := "0.0.0.0"
    vpcConfig := .obj [("vpcId", .str "vpc-123")]
    dbConfig := .obj [("username", .str "admin")]
    confirm := true }

/-- The same prompt answers with the final confirmation declined. -/
def sampleDecline : DeployInputs :=
  { sampleInputs with confirm := false }

/-! ## Helper lemmas -/

/-- The root initializer terminates the process exactly when its `try` block
raised. -/
theorem cliInit_quit_eq (apiUrl outputFile home : String) (h : HealthResult) :
    (cliInit apiUrl outputFile home h).quit = healthFailure h := by
  unfold cliInit
  by_cases hf : healthFailure h <;> simp [hf]

/-- The configuration the root initializer hands to a subcommand when the
probe did not raise. -/
theorem cliInit_config_success (apiUrl outputFile home : String) (h : HealthResult)
    (hf : healthFailure h = false) :
    (cliInit apiUrl outputFile home h).config =
      [("api_url", Json.str apiUrl),
       ("pygrid_root_path", Json.str (home ++ "/.pygrid/cli")),
       ("output_file", Json.str (home ++ "/.pygrid/cli" ++ "/" ++ outputFile))] := by
  unfold cliInit
  simp [hf]

/-- A full deploy invocation with a healthy probe: the root initializer does
not quit, the subcommand body runs, and the finalizer writes the resulting
configuration. -/
theorem runDeploy_success (apiUrl outputFile home : String) (h : HealthResult)
    (provider app : String) (i : DeployInputs) (hf : healthFailure h = false) :
    runDeploy apiUrl outputFile home h provider app i =
      { startupQuit := false
        echoes := (cliInit apiUrl outputFile home h).echoes
        config := (deploy (cliInit apiUrl outputFile home h).config apiUrl provider app i).config
        requests := (deploy (cliInit apiUrl outputFile home h).config apiUrl provider app i).posts
        written := some (logging
          (deploy (cliInit apiUrl outputFile home h).config apiUrl provider app i).config) } := by
  simp [runDeploy, cliInit_quit_eq, hf]

/-- A full status invocation with a healthy probe. -/
theorem runStatus_success (apiUrl outputFile home : String) (h : HealthResult)
    (app : String) (id : Option Int) (hf : healthFailure h = false) :
    runStatus apiUrl outputFile home h app id =
      { startupQuit := false
        echoes := (cliInit apiUrl outputFile home h).echoes
        config := (cliInit apiUrl outputFile home h).config
        requests := [status apiUrl app id]
        written := some (logging (cliInit apiUrl outputFile home h).config) } := by
  simp [runStatus, cliInit_quit_eq, hf]

/-- The configuration object after the `deploy` body, as the root
configuration followed by the fields the body adds, in insertion order. -/
theorem deploy_config_eq (root : List (String × Json)) (apiUrl provider app : String)
    (i : DeployInputs) :
    (deploy root apiUrl provider app i).config =
      root ++
      [("provider", Json.str (pyLower provider)),
       ("app", Json.obj (appRecord app i)),
       ("serverless", Json.bool i.serverless),
       ("websockets", Json.bool i.websockets)] ++
      (if pyLower provider == "aws" then [("vpc", i.vpcConfig)] else []) ++
      (if i.confirm then
        [("credentials", Json.obj [("cloud", i.credsCloud), ("db", i.dbConfig)])]
       else []) := by
  unfold deploy
  by_cases hc : i.confirm <;> simp [hc]

/-- The POSTs the `deploy` body issues. -/
theorem deploy_posts_eq (root : List (String × Json)) (apiUrl provider app : String)
    (i : DeployInputs) :
    (deploy root apiUrl provider app i).posts =
      if i.confirm then
        [{ url := urljoin apiUrl "/deploy"
           body := some (Json.str (dumps (Json.obj (deploy root apiUrl provider app i).config))) }]
      else [] := by
  unfold deploy
  by_cases hc : i.confirm <;> simp [hc]

/-- The separate `credentials` object the `deploy` body builds. -/
theorem deploy_credentials_eq (root : List (String × Json)) (apiUrl provider app : String)
    (i : DeployInputs) :
    (deploy root apiUrl provider app i).credentials =
      [("cloud", i.credsCloud), ("db", i.dbConfig)] := by
  unfold deploy
  by_cases hc : i.confirm <;> simp [hc]

/-- A value accepted by `click.Choice` is one of the declared choices. -/
theorem clickChoice_mem {choices : List String} {input c : String}
    (h : clickChoice choices input = some c) : c ∈ choices :=
  List.mem_of_find?_eq_some h

/-- First-match association-list lookup recovers any binding whose key is
unrepeated. -/
theorem lookup_eq_some_of_mem {l : List (String × Json)} {k : String} {v : Json}
    (nd : (l.map Prod.fst).Nodup) (hm : (k, v) ∈ l) : l.lookup k = some v := by
  induction l with
  | nil => cases hm
  | cons p rest ih =>
    obtain ⟨k', v'⟩ := p
    simp only [List.map_cons, List.nodup_cons] at nd
    rcases List.mem_cons.mp hm with he | ht
    · cases he
      simp [List.lookup]
    · have hne : k ≠ k' := by
        rintro rfl
        exact nd.1 (List.mem_map.mpr ⟨(k, v), ht, rfl⟩)
      have : (k == k') = false := beq_eq_false_iff_ne.mpr hne
      simp [List.lookup, this, ih nd.2 ht]

/-! ## Claims -/

/-- Claim C1 counterexample: a health-probe response with HTTP status 500 does
NOT terminate the root initializer — `requests.get` raises no exception for a
non-200 status, the `try` block completes, and the deploy subcommand (with its
prompts) proceeds and the finalizer writes a file. -/
theorem C1_counterexample :
    ¬ ((cliInit "http://localhost:5000" "out.json" "/root"
        (HealthResult.resp 500 (some (Json.obj [("message", Json.str "error")])))).quit
          = true) := by
  decide

/-- Claim C1 (amended): the root initializer prints the error message and
terminates — before any subcommand, prompt, or output write — exactly when the
health probe raised: a network error, or a 200 response whose body does not
yield a `message` field (malformed, non-object, or lacking the field).  A
non-200 status alone raises nothing and does not terminate. -/
theorem C1_init_quit_characterization :
    ∀ (apiUrl outputFile home : String) (h : HealthResult),
      ((cliInit apiUrl outputFile home h).quit = true ↔
        (h = HealthResult.exn ∨
          ∃ body, h = HealthResult.resp 200 body ∧ messageOf body = none)) ∧
      ((cliInit apiUrl outputFile home h).quit = true →
        (cliInit apiUrl outputFile home h).echoes =
            [Json.str "Please enter a valid API URL"] ∧
        (∀ (provider app : String) (i : DeployInputs),
          (runDeploy apiUrl outputFile home h provider app i).written = none ∧
          (runDeploy apiUrl outputFile home h provider app i).requests = []) ∧
        (∀ (app : String) (id : Option Int),
          (runStatus apiUrl outputFile home h app id).written = none ∧
          (runStatus apiUrl outputFile home h app id).requests = [])) := by
  intro apiUrl outputFile home h
  constructor
  · rw [cliInit_quit_eq]
    cases h with
    | exn => simp [healthFailure]
    | resp s b =>
      simp only [healthFailure, Bool.and_eq_true, beq_iff_eq, Option.isNone_iff_eq_none]
      constructor
      · rintro ⟨rfl, hmsg⟩
        exact Or.inr ⟨b, rfl, hmsg⟩
      · rintro (hexn | ⟨body, heq, hmsg⟩)
        · cases hexn
        · cases heq
          exact ⟨rfl, hmsg⟩
  · intro hq
    refine ⟨?_, ?_, ?_⟩
    · unfold cliInit at hq ⊢
      by_cases hf : healthFailure h <;> simp [hf] at hq ⊢
    · intro provider app i
      simp [runDeploy, hq]
    · intro app id
      simp [runStatus, hq]

/-- Claim C4: for every completed deploy workflow (healthy probe, any
confirmation outcome), the `vpc` field is present in the assembled
configuration iff the chosen provider is AWS; for GCP and Azure no `vpc`
field is added. -/
theorem C4_vpc_iff_aws :
    ∀ (apiUrl outputFile home : String) (h : HealthResult) (raw p app : String)
      (i : DeployInputs),
      healthFailure h = false →
      clickChoice ["AWS", "GCP", "AZURE"] raw = some p →
      ("vpc" ∈ (runDeploy apiUrl outputFile home h p app i).config.map Prod.fst ↔
        pyLower p = "aws") := by
  intro apiUrl outputFile home h raw p app i hf hc
  have hp := clickChoice_mem hc
  simp only [List.mem_cons, List.not_mem_nil, or_false] at hp
  rw [runDeploy_success _ _ _ _ _ _ _ hf, deploy_config_eq,
    cliInit_config_success _ _ _ _ hf]
  have e1 : (pyLower "AWS" == "aws") = true := by decide
  have e2 : (pyLower "GCP" == "aws") = false := by decide
  have e3 : (pyLower "AZURE" == "aws") = false := by decide
  have f1 : pyLower "AWS" = "aws" := by decide
  have f2 : pyLower "GCP" = "gcp" := by decide
  have f3 : pyLower "AZURE" = "azure" := by decide
  rcases hp with rfl | rfl | rfl <;> by_cases hcf : i.confirm <;>
    simp [e1, e2, e3, f1, f2, f3, hcf]

/-- Claim C5: the status subcommand issues exactly one GET; with no `id` it
targets the collection endpoint `{api_url}/deployed/{app}s`, with an `id` the
single-resource endpoint `{api_url}/deployed/{app}/{id}`, where the path
segment is the lowercased application name. -/
theorem C5_status_endpoints :
    ∀ (apiUrl outputFile home : String) (h : HealthResult) (raw a : String)
      (id : Option Int),
      healthFailure h = false →
      isOriginUrl apiUrl →
      clickChoice ["Node", "Network"] raw = some a →
      (runStatus apiUrl outputFile home h a id).requests = [status apiUrl a id] ∧
      (status apiUrl a none).url = apiUrl ++ "/deployed/" ++ pyLower a ++ "s" ∧
      (∀ n : Int, (status apiUrl a (some n)).url =
        apiUrl ++ "/deployed/" ++ pyLower a ++ "/" ++ toString n) ∧
      (status apiUrl a id).body = none := by
  intro apiUrl outputFile home h raw a id hf ho _
  refine ⟨?_, ?_, ?_, ?_⟩
  · rw [runStatus_success _ _ _ _ _ _ hf]
  · show urljoin apiUrl ("/deployed/" ++ pyLower a ++ "s") = _
    unfold urljoin
    rw [ho]
    simp [String.append_assoc]
  · intro n
    show urljoin apiUrl ("/deployed/" ++ pyLower a ++ "/" ++ toString n) = _
    unfold urljoin
    rw [ho]
    simp [String.append_assoc]
  · cases id <;> rfl

/-- Claim C6: the application-argument step adds exactly the specified field
set and nothing else: `node` gets `id`, `port`, `host`, `network`;
non-serverless `network` gets `port`, `host`; serverless `network` and
`worker` get nothing, leaving the app record with only `name`. -/
theorem C6_app_argument_fields :
    ∀ (i : DeployInputs) (s : Bool),
      get_app_arguments "node" s i =
        [("id", Json.str i.nodeId), ("port", Json.str i.nodePort),
         ("host", Json.str i.nodeHost), ("network", Json.str i.nodeNetwork)] ∧
      get_app_arguments "network" false i =
        [("port", Json.str i.netPort), ("host", Json.str i.netHost)] ∧
      get_app_arguments "network" true i = [] ∧
      get_app_arguments "worker" s i = [] ∧
      appRecord "Node" i =
        ("name", Json.str "node") :: get_app_arguments "node" i.serverless i ∧
      appRecord "Network" i =
        ("name", Json.str "network") :: get_app_arguments "network" i.serverless i ∧
      appRecord "Worker" i = [("name", Json.str "worker")] := by
  intro i s
  refine ⟨?_, rfl, rfl, ?_, rfl, rfl, rfl⟩
  · cases s <;> rfl
  · cases s <;> rfl

/-- Claim C7: every deploy run builds the credentials record with the database
configuration attached as `credentials.db`, unconditionally — for every
provider and every confirmation outcome. -/
theorem C7_db_attached_unconditionally :
    ∀ (root : List (String × Json)) (apiUrl provider app : String) (i : DeployInputs),
      (deploy root apiUrl provider app i).credentials =
        [("cloud", i.credsCloud), ("db", i.dbConfig)] ∧
      (deploy root apiUrl provider app i).credentials.lookup "db" = some i.dbConfig := by
  intro root apiUrl provider app i
  refine ⟨deploy_credentials_eq root apiUrl provider app i, ?_⟩
  rw [deploy_credentials_eq]
  simp [List.lookup]

/-- Claim C8: for every accepted provider and application input, in any letter
case, the stored `provider` field is the lowercase canonical value — one of
aws, gcp, azure — and the stored `app.name` is lowercase — one of node,
network, worker. -/
theorem C8_enum_normalization :
    ∀ (apiUrl outputFile home : String) (h : HealthResult) (rawP p rawA a : String)
      (i : DeployInputs),
      healthFailure h = false →
      clickChoice ["AWS", "GCP", "AZURE"] rawP = some p →
      clickChoice ["Node", "Network", "Worker"] rawA = some a →
      (runDeploy apiUrl outputFile home h p a i).config.lookup "provider"
          = some (Json.str (pyLower p)) ∧
      pyLower p ∈ ["aws", "gcp", "azure"] ∧
      (runDeploy apiUrl outputFile home h p a i).config.lookup "app"
          = some (Json.obj (appRecord a i)) ∧
      (appRecord a i).lookup "name" = some (Json.str (pyLower a)) ∧
      pyLower a ∈ ["node", "network", "worker"] := by
  intro apiUrl outputFile home h rawP p rawA a i hf hcp hca
  have hp := clickChoice_mem hcp
  have ha := clickChoice_mem hca
  simp only [List.mem_cons, List.not_mem_nil, or_false] at hp ha
  rw [runDeploy_success _ _ _ _ _ _ _ hf, deploy_config_eq,
    cliInit_config_success _ _ _ _ hf]
  have e1 : (pyLower "AWS" == "aws") = true := by decide
  have e2 : (pyLower "GCP" == "aws") = false := by decide
  have e3 : (pyLower "AZURE" == "aws") = false := by decide
  refine ⟨?_, ?_, ?_, ?_, ?_⟩
  · rcases hp with rfl | rfl | rfl <;> by_cases hcf : i.confirm <;>
      simp [e1, e2, e3, hcf, List.lookup]
  · rcases hp with rfl | rfl | rfl <;> decide
  · rcases hp with rfl | rfl | rfl <;> by_cases hcf : i.confirm <;>
      simp [e1, e2, e3, hcf, List.lookup]
  · rcases ha with rfl | rfl | rfl <;>
      simp [appRecord, List.lookup]
  · rcases ha with rfl | rfl | rfl <;> decide

/-- Claim C2: when the user confirms submission, the credentials record is
attached as the `credentials` field of the configuration object, and the one
POST issued goes to `{api_url}/deploy` with a body that is a JSON-encoded
string — a JSON string whose content is the JSON text of the whole
configuration — not a raw structured JSON body. -/
theorem C2_deploy_post_body :
    ∀ (apiUrl outputFile home : String) (h : HealthResult) (p a : String)
      (i : DeployInputs),
      healthFailure h = false →
      isOriginUrl apiUrl →
      i.confirm = true →
      (runDeploy apiUrl outputFile home h p a i).config.lookup "credentials"
          = some (Json.obj [("cloud", i.credsCloud), ("db", i.dbConfig)]) ∧
      (runDeploy apiUrl outputFile home h p a i).requests =
        [{ url := apiUrl ++ "/deploy"
           body := some (Json.str (dumps
             (Json.obj (runDeploy apiUrl outputFile home h p a i).config))) }] := by
  intro apiUrl outputFile home h p a i hf ho hcf
  rw [runDeploy_success _ _ _ _ _ _ _ hf]
  constructor
  · rw [deploy_config_eq, cliInit_config_success _ _ _ _ hf]
    by_cases haws : (pyLower p == "aws") = true <;>
      simp [haws, hcf, List.lookup]
  · rw [deploy_posts_eq]
    unfold urljoin
    rw [ho]
    simp [hcf]

/-- Claim C3: when the user declines the final confirmation, no POST is
issued, yet the finalizer still writes the output document containing exactly
the configuration gathered up to that point (root fields, provider, app with
its arguments, the two flags, and `vpc` for AWS — no credentials). -/
theorem C3_decline_no_post :
    ∀ (apiUrl outputFile home : String) (h : HealthResult) (p a : String)
      (i : DeployInputs),
      healthFailure h = false →
      i.confirm = false →
      (runDeploy apiUrl outputFile home h p a i).requests = [] ∧
      (runDeploy apiUrl outputFile home h p a i).written =
        some (logging (runDeploy apiUrl outputFile home h p a i).config) ∧
      (runDeploy apiUrl outputFile home h p a i).config =
        (cliInit apiUrl outputFile home h).config ++
        [("provider", Json.str (pyLower p)),
         ("app", Json.obj (appRecord a i)),
         ("serverless", Json.bool i.serverless),
         ("websockets", Json.bool i.websockets)] ++
        (if pyLower p == "aws" then [("vpc", i.vpcConfig)] else []) := by
  intro apiUrl outputFile home h p a i hf hcf
  rw [runDeploy_success _ _ _ _ _ _ _ hf]
  refine ⟨?_, rfl, ?_⟩
  · rw [deploy_posts_eq]
    simp [hcf]
  · rw [deploy_config_eq]
    simp [hcf]

/-- Keys of the configuration a completed deploy run assembles are pairwise
distinct, so first-match lookup is unambiguous. -/
theorem deploy_config_keys_nodup (apiUrl outputFile home : String) (h : HealthResult)
    (p a : String) (i : DeployInputs) (hf : healthFailure h = false) :
    ((runDeploy apiUrl outputFile home h p a i).config.map Prod.fst).Nodup := by
  rw [runDeploy_success _ _ _ _ _ _ _ hf, deploy_config_eq,
    cliInit_config_success _ _ _ _ hf]
  by_cases haws : (pyLower p == "aws") = true <;> by_cases hcf : i.confirm <;>
    simp [haws, hcf]

/-- Claim C9: the JSON document the finalizer writes, parsed back, reproduces
every field the subcommand set — any binding in the configuration is recovered
verbatim (nested sub-records included, since the stored value is returned
unchanged) by field lookup on the written document; for both the deploy and
the status subcommand. -/
theorem C9_roundtrip :
    ∀ (apiUrl outputFile home : String) (h : HealthResult),
      healthFailure h = false →
      (∀ (p a : String) (i : DeployInputs) (w : Json),
        (runDeploy apiUrl outputFile home h p a i).written = some w →
        ∀ (k : String) (v : Json),
          (k, v) ∈ (runDeploy apiUrl outputFile home h p a i).config →
          w.lookupField k = some v) ∧
      (∀ (app : String) (id : Option Int) (w : Json),
        (runStatus apiUrl outputFile home h app id).written = some w →
        ∀ (k : String) (v : Json),
          (k, v) ∈ (runStatus apiUrl outputFile home h app id).config →
          w.lookupField k = some v) := by
  intro apiUrl outputFile home h hf
  constructor
  · intro p a i w hw k v hm
    rw [runDeploy_success _ _ _ _ _ _ _ hf] at hw hm
    simp only [logging, Option.some.injEq] at hw
    subst hw
    exact lookup_eq_some_of_mem
      (by
        have := deploy_config_keys_nodup apiUrl outputFile home h p a i hf
        rwa [runDeploy_success _ _ _ _ _ _ _ hf] at this) hm
  · intro app id w hw k v hm
    rw [runStatus_success _ _ _ _ _ _ hf] at hw hm
    simp only [logging, Option.some.injEq] at hw
    subst hw
    refine lookup_eq_some_of_mem ?_ hm
    rw [cliInit_config_success _ _ _ _ hf]
    simp

/-- Claim C10: the written output document carries a `credentials` field
exactly when the user confirmed submission: a confirmed deploy persists the
cloud credentials and database configuration, a declined one writes a document
with no credentials in it. -/
theorem C10_credentials_iff_confirmed :
    ∀ (apiUrl outputFile home : String) (h : HealthResult) (p a : String)
      (i : DeployInputs) (w : Json),
      healthFailure h = false →
      (runDeploy apiUrl outputFile home h p a i).written = some w →
      (w.lookupField "credentials").isSome = i.confirm ∧
      (i.confirm = true →
        w.lookupField "credentials" =
          some (Json.obj [("cloud", i.credsCloud), ("db", i.dbConfig)])) ∧
      (i.confirm = false → w.lookupField "credentials" = none) := by
  intro apiUrl outputFile home h p a i w hf hw
  rw [runDeploy_success _ _ _ _ _ _ _ hf] at hw
  simp only [logging, Option.some.injEq] at hw
  subst hw
  rw [deploy_config_eq, cliInit_config_success _ _ _ _ hf]
  by_cases haws : (pyLower p == "aws") = true <;> by_cases hcf : i.confirm <;>
    simp [haws, hcf, Json.lookupField, List.lookup]

/-! ## Witnesses -/

/-- Claim C1 witness: at a concrete failing probe (network error) the
initializer does quit, prints the error, and no deploy output is written. -/
theorem C1_witness :
    (cliInit sampleApi "out.json" "/root" HealthResult.exn).quit = true ∧
    (cliInit sampleApi "out.json" "/root" HealthResult.exn).echoes =
      [Json.str "Please enter a valid API URL"] ∧
    (runDeploy sampleApi "out.json" "/root" HealthResult.exn "AWS" "Node"
      sampleInputs).written = none := by
  have hmain := C1_init_quit_characterization sampleApi "out.json" "/root" HealthResult.exn
  have hq := (hmain.1).mpr (Or.inl rfl)
  exact ⟨hq, (hmain.2 hq).1, ((hmain.2 hq).2.1 "AWS" "Node" sampleInputs).1⟩

/-- Claim C2 witness: a concrete confirmed AWS/Node deploy run satisfies the
hypotheses and exhibits the stringified POST body. -/
theorem C2_witness :
    healthFailure sampleHealth = false ∧
    urljoinRoot sampleApi = sampleApi ∧
    sampleInputs.confirm = true ∧
    ((runDeploy sampleApi "out.json" "/root" sampleHealth "AWS" "Node"
        sampleInputs).config.lookup "credentials"
      = some (Json.obj [("cloud", sampleInputs.credsCloud),
                        ("db", sampleInputs.dbConfig)]) ∧
     (runDeploy sampleApi "out.json" "/root" sampleHealth "AWS" "Node"
        sampleInputs).requests =
       [{ url := sampleApi ++ "/deploy"
          body := some (Json.str (dumps (Json.obj
            (runDeploy sampleApi "out.json" "/root" sampleHealth "AWS" "Node"
              sampleInputs).config))) }]) :=
  ⟨by decide, by decide, rfl,
   C2_deploy_post_body sampleApi "out.json" "/root" sampleHealth "AWS" "Node"
     sampleInputs (by decide) (show urljoinRoot sampleApi = sampleApi by decide) rfl⟩

/-- Claim C3 witness: a concrete declined GCP/Network deploy run issues no
request and still writes the gathered configuration. -/
theorem C3_witness :
    healthFailure sampleHealth = false ∧
    sampleDecline.confirm = false ∧
    ((runDeploy sampleApi "out.json" "/root" sampleHealth "GCP" "Network"
        sampleDecline).requests = [] ∧
     (runDeploy sampleApi "out.json" "/root" sampleHealth "GCP" "Network"
        sampleDecline).written =
       some (logging (runDeploy sampleApi "out.json" "/root" sampleHealth "GCP"
         "Network" sampleDecline).config) ∧
     (runDeploy sampleApi "out.json" "/root" sampleHealth "GCP" "Network"
        sampleDecline).config =
       (cliInit sampleApi "out.json" "/root" sampleHealth).config ++
       [("provider", Json.str (pyLower "GCP")),
        ("app", Json.obj (appRecord "Network" sampleDecline)),
        ("serverless", Json.bool sampleDecline.serverless),
        ("websockets", Json.bool sampleDecline.websockets)] ++
       (if pyLower "GCP" == "aws" then [("vpc", sampleDecline.vpcConfig)] else [])) :=
  ⟨by decide, rfl,
   C3_decline_no_post sampleApi "out.json" "/root" sampleHealth "GCP" "Network"
     sampleDecline (by decide) rfl⟩

/-- Claim C4 witness: the lowercase input `aws` is accepted as `AWS`, and a
concrete AWS run exhibits the vpc-presence equivalence. -/
theorem C4_witness :
    healthFailure sampleHealth = false ∧
    clickChoice ["AWS", "GCP", "AZURE"] "aws" = some "AWS" ∧
    ("vpc" ∈ (runDeploy sampleApi "out.json" "/root" sampleHealth "AWS" "Node"
        sampleInputs).config.map Prod.fst ↔ pyLower "AWS" = "aws") :=
  ⟨by decide, by decide,
   C4_vpc_iff_aws sampleApi "out.json" "/root" sampleHealth "aws" "AWS" "Node"
     sampleInputs (by decide) (by decide)⟩

/-- Claim C5 witness: the spec's scenario — `status --app Node` targets
`/deployed/nodes`, `status --app Node --id 7` targets `/deployed/node/7`. -/
theorem C5_witness :
    healthFailure sampleHealth = false ∧
    urljoinRoot sampleApi = sampleApi ∧
    clickChoice ["Node", "Network"] "Node" = some "Node" ∧
    (runStatus sampleApi "out.json" "/root" sampleHealth "Node" (some 7)).requests =
      [status sampleApi "Node" (some 7)] ∧
    (status sampleApi "Node" none).url =
      sampleApi ++ "/deployed/" ++ pyLower "Node" ++ "s" ∧
    (status sampleApi "Node" (some 7)).url =
      sampleApi ++ "/deployed/" ++ pyLower "Node" ++ "/" ++ toString (7 : Int) := by
  have hmain := C5_status_endpoints sampleApi "out.json" "/root" sampleHealth "Node"
    "Node" (some 7) (by decide) (show urljoinRoot sampleApi = sampleApi by decide) (by decide)
  exact ⟨by decide, by decide, by decide, hmain.1, hmain.2.1, hmain.2.2.1 7⟩

/-- Claim C8 witness: mixed-case inputs `azure` and `nEtWoRk` are accepted and
stored in normalized lowercase form. -/
theorem C8_witness :
    healthFailure sampleHealth = false ∧
    clickChoice ["AWS", "GCP", "AZURE"] "azure" = some "AZURE" ∧
    clickChoice ["Node", "Network", "Worker"] "nEtWoRk" = some "Network" ∧
    ((runDeploy sampleApi "out.json" "/root" sampleHealth "AZURE" "Network"
        sampleInputs).config.lookup "provider"
      = some (Json.str (pyLower "AZURE")) ∧
     pyLower "AZURE" ∈ ["aws", "gcp", "azure"] ∧
     (runDeploy sampleApi "out.json" "/root" sampleHealth "AZURE" "Network"
        sampleInputs).config.lookup "app"
      = some (Json.obj (appRecord "Network" sampleInputs)) ∧
     (appRecord "Network" sampleInputs).lookup "name"
      = some (Json.str (pyLower "Network")) ∧
     pyLower "Network" ∈ ["node", "network", "worker"]) :=
  ⟨by decide, by decide, by decide,
   C8_enum_normalization sampleApi "out.json" "/root" sampleHealth "azure" "AZURE"
     "nEtWoRk" "Network" sampleInputs (by decide) (by decide) (by decide)⟩

/-- Claim C9 witness: in a concrete confirmed run, the `provider` binding set
by the deploy subcommand is recovered from the written document. -/
theorem C9_witness :
    healthFailure sampleHealth = false ∧
    (runDeploy sampleApi "out.json" "/root" sampleHealth "AWS" "Node"
      sampleInputs).written =
      some (logging (runDeploy sampleApi "out.json" "/root" sampleHealth "AWS"
        "Node" sampleInputs).config) ∧
    ("provider", Json.str (pyLower "AWS")) ∈
      (runDeploy sampleApi "out.json" "/root" sampleHealth "AWS" "Node"
        sampleInputs).config ∧
    (logging (runDeploy sampleApi "out.json" "/root" sampleHealth "AWS" "Node"
      sampleInputs).config).lookupField "provider"
      = some (Json.str (pyLower "AWS")) := by
  have hf : healthFailure sampleHealth = false := by decide
  have hw : (runDeploy sampleApi "out.json" "/root" sampleHealth "AWS" "Node"
      sampleInputs).written =
      some (logging (runDeploy sampleApi "out.json" "/root" sampleHealth "AWS"
        "Node" sampleInputs).config) := rfl
  have hm : ("provider", Json.str (pyLower "AWS")) ∈
      (runDeploy sampleApi "out.json" "/root" sampleHealth "AWS" "Node"
        sampleInputs).config :=
    List.Mem.tail _ (List.Mem.tail _ (List.Mem.tail _ (List.Mem.head _)))
  exact ⟨hf, hw, hm,
    (C9_roundtrip sampleApi "out.json" "/root" sampleHealth hf).1 "AWS" "Node"
      sampleInputs _ hw "provider" (Json.str (pyLower "AWS")) hm⟩

/-- Claim C10 witness: a concrete declined run writes a document with no
`credentials` field. -/
theorem C10_witness :
    healthFailure sampleHealth = false ∧
    (runDeploy sampleApi "out.json" "/root" sampleHealth "AWS" "Node"
      sampleDecline).written =
      some (logging (runDeploy sampleApi "out.json" "/root" sampleHealth "AWS"
        "Node" sampleDecline).config) ∧
    ((logging (runDeploy sampleApi "out.json" "/root" sampleHealth "AWS" "Node"
      sampleDecline).config).lookupField "credentials").isSome
      = sampleDecline.confirm ∧
    (logging (runDeploy sampleApi "out.json" "/root" sampleHealth "AWS" "Node"
      sampleDecline).config).lookupField "credentials" = none := by
  have hf : healthFailure sampleHealth = false := by decide
  have hw : (runDeploy sampleApi "out.json" "/root" sampleHealth "AWS" "Node"
      sampleDecline).written =
      some (logging (runDeploy sampleApi "out.json" "/root" sampleHealth "AWS"
        "Node" sampleDecline).config) := rfl
  have hmain := C10_credentials_iff_confirmed sampleApi "out.json" "/root"
    sampleHealth "AWS" "Node" sampleDecline _ hf hw
  exact ⟨hf, hw, hmain.1, hmain.2.2 rfl⟩

end PyGridCLI
